import Mathlib

/-!
Verification of `generate_alternatives.py` (route-alternative generation for the
Cycling Copilot simulation).

Modelling conventions, chosen so that the embedding is both faithful and
executable:

* Python floats are embedded as exact rationals (`ℚ`); every IEEE float value
  is a rational, and all decisions taken by the script on route data are
  order/equality comparisons, which agree with the exact-rational reading.
* `haversine` involves transcendental functions, so it is embedded over `ℝ`
  (`Real.sin`, `Real.arcsin`, `Real.sqrt`, `Real.pi`) and is necessarily
  noncomputable.  The scenario-selection and comparison-building code only
  consumes the metric through calls `haversine(p, q)`; those stages are
  therefore parametrised by a metric `dist : RoutePoint → RoutePoint → ℚ`
  standing for the great-circle distance, which keeps them executable.
  Properties proved for every `dist` in particular cover the haversine
  instantiation.
* The two `while` loops of the climb detector are embedded with an explicit
  fuel argument (structural recursion); the top-level entry point supplies
  `points.length` fuel, which is an upper bound on the number of iterations
  (the scan index strictly increases each iteration), so the fuel never runs
  out on the calls the program performs.
* Python's `sorted` is a stable sort; it is embedded as `List.insertionSort`,
  which is also stable, hence produces the identical list for the identical
  key relation.
* Python's `range`, `max`/`max(..., key=...)` and banker's `round` are
  embedded as `pyRange`, `pyMax`, `pyRound`.
* The `description` fields (presentation-only formatted strings interpolating
  floats) and the live OpenRouteService call (`call_ors`, an external network
  collaborator) are not modelled; no analysed behaviour depends on them.
  The unused `RoutePoint.index` field (always equal to the list position) is
  likewise omitted.
-/

set_option maxRecDepth 40000

/-- A point of the loaded route: latitude, longitude, altitude and the
recorded timestamp in milliseconds from start (`RoutePoint` in the source;
the redundant `index` field is omitted). -/
structure RoutePoint where
  lat : ℚ
  lng : ℚ
  alt : ℚ
  t : ℤ
deriving DecidableEq, Inhabited, Repr

/-- One entry of `named_sectors` / `gravel_sectors` in `segments.json`.
`distance_m` and `name` are read with `dict.get` defaults in the source, so
they are optional here. -/
structure Sector where
  from_index : ℕ
  to_index : ℕ
  distance_m : Option ℚ
  name : Option String
deriving DecidableEq, Inhabited, Repr

/-- The parsed `segments.json`. -/
structure Segments where
  named_sectors : List Sector
  gravel_sectors : List Sector
deriving DecidableEq, Inhabited, Repr

/-- `AlternativeScenario` of the source.  The presentation-only
`description` string is omitted. -/
structure AlternativeScenario where
  query_value : String
  label : String
  diverge_index : ℕ
  rejoin_index : ℕ
  avoid_features : List String
  preference : String
  ors_profile : String
  extra_waypoints : List (ℚ × ℚ)
deriving DecidableEq, Inhabited, Repr

/-- Python `range(a, b, s)` for positive step `s`: the arithmetic progression
`a, a+s, ...` strictly below `b`. -/
def pyRange (a b s : ℕ) : List ℕ :=
  List.range' a ((b - a + s - 1) / s) s

/-- Python `max(l, key=key)` (`None` on the empty list): iterates left to
right keeping the current maximum, replacing it only on a strictly larger
key, hence returns the first maximal element. -/
def pyMax {α : Type} (key : α → ℚ) : List α → Option α
  | [] => none
  | x :: xs => some (xs.foldl (fun b y => if key b < key y then y else b) x)

/-- Python `round(q)` on an exact value: round half to even, returning an
integer. -/
def pyRound (q : ℚ) : ℤ :=
  let n := ⌊q⌋
  if q - n < 1/2 then n
  else if 1/2 < q - n then n + 1
  else if n % 2 = 0 then n else n + 1

/-- Python `round(q, 1)` on an exact value. -/
def pyRound1 (q : ℚ) : ℚ :=
  (pyRound (q * 10) : ℚ) / 10

/-- Source `haversine`: great-circle distance in km between two lat/lng
pairs (Earth radius 6371 km); `math.radians x = x * π / 180`. -/
noncomputable def haversine (lat1 lon1 lat2 lon2 : ℝ) : ℝ :=
  let R : ℝ := 6371
  let dlat := Real.pi / 180 * (lat2 - lat1)
  let dlon := Real.pi / 180 * (lon2 - lon1)
  let a := Real.sin (dlat / 2) ^ 2 +
    Real.cos (Real.pi / 180 * lat1) * Real.cos (Real.pi / 180 * lat2) *
      Real.sin (dlon / 2) ^ 2
  R * 2 * Real.arcsin (Real.sqrt a)

/-- The haversine distance between two route points. -/
noncomputable def havP (p q : RoutePoint) : ℝ :=
  haversine (p.lat : ℝ) (p.lng : ℝ) (q.lat : ℝ) (q.lng : ℝ)

/-- Tail of the cumulative-distance table: `cum[i] = cum[i-1] + hav(p[i-1], p[i])`. -/
noncomputable def cumAux (prev : RoutePoint) (acc : ℝ) : List RoutePoint → List ℝ
  | [] => []
  | q :: rest => (acc + havP prev q) :: cumAux q (acc + havP prev q) rest

/-- Source `precompute_cum_km`: cumulative km from start for every index. -/
noncomputable def precomputeCumKm : List RoutePoint → List ℝ
  | [] => []
  | p :: rest => 0 :: cumAux p 0 rest

/-- Inner `while` loop of `find_climb_segments`: starting at index `j` with
accumulated `gain`, extend the climb while the elevation delta is positive,
tolerating dips of at most 10 m; stop at a dip deeper than 10 m or at the end
of the route.  The fuel argument bounds the number of iterations; the caller
supplies `points.length`, which always suffices since `j` strictly increases. -/
def climbInner (points : List RoutePoint) : ℕ → ℕ → ℚ → ℕ × ℚ
  | 0, j, gain => (j, gain)
  | fuel + 1, j, gain =>
    if j < points.length - 1 then
      let delta := (points.getD (j + 1) default).alt - (points.getD j default).alt
      if 0 < delta then climbInner points fuel (j + 1) (gain + delta)
      else if 10 < |delta| then (j, gain)
      else climbInner points fuel (j + 1) gain
    else (j, gain)

/-- Outer `while` loop of `find_climb_segments`: scan start indices; a run
qualifies when `gain ≥ minGain` and its length is at least `window`, in which
case the scan resumes right after the run, else it advances by one.  Fueled as
for `climbInner`; the scan index strictly increases each iteration. -/
def climbOuter (points : List RoutePoint) (minGain : ℚ) (window : ℕ) :
    ℕ → ℕ → List (ℕ × ℕ × ℚ)
  | 0, _ => []
  | fuel + 1, i =>
    if i < points.length - window then
      let r := climbInner points points.length i 0
      if minGain ≤ r.2 ∧ window ≤ r.1 - i then
        (i, r.1, r.2) :: climbOuter points minGain window fuel (r.1 + 1)
      else climbOuter points minGain window fuel (i + 1)
    else []

/-- Source `find_climb_segments(points, min_gain_m, window)` (source defaults:
`min_gain_m = 80`, `window = 50`): segments with sustained climbing, as
`(start_idx, end_idx, gain)` triples. -/
def findClimbSegments (points : List RoutePoint) (minGain : ℚ) (window : ℕ) :
    List (ℕ × ℕ × ℚ) :=
  climbOuter points minGain window points.length 0

/-- Source `find_gravel_sectors`: named and gravel sectors combined, stably
sorted by `from_index` (Python's `sorted` is stable, as is insertion sort). -/
def findGravelSectors (segments : Segments) : List Sector :=
  List.insertionSort (fun a b => a.from_index ≤ b.from_index)
    (segments.named_sectors ++ segments.gravel_sectors)

/-- The index pairs `(i, j)` inspected by the shortcut search of
`pick_scenarios`: `i` over the middle third at stride 100, `j` from `i + 400`
up to (exclusively) `min (i + 1000) mid_end` at stride 100, in loop order. -/
def consideredPairs (points : List RoutePoint) : List (ℕ × ℕ) :=
  let midStart := points.length / 3
  let midEnd := 2 * points.length / 3
  (pyRange midStart midEnd 100).flatMap fun i =>
    (pyRange (i + 400) (min (i + 1000) midEnd) 100).map fun j => (i, j)

/-- The distance the shortcut search associates to an index pair. -/
def pairD (dist : RoutePoint → RoutePoint → ℚ) (points : List RoutePoint)
    (pr : ℕ × ℕ) : ℚ :=
  dist (points.getD pr.1 default) (points.getD pr.2 default)

/-- One step of the shortcut search: replace the best pair when the new pair
is strictly closer and under 3 km (an empty accumulator plays `inf`). -/
def scStep (dist : RoutePoint → RoutePoint → ℚ) (points : List RoutePoint)
    (acc : Option ((ℕ × ℕ) × ℚ)) (pr : ℕ × ℕ) : Option ((ℕ × ℕ) × ℚ) :=
  let d := pairD dist points pr
  match acc with
  | none => if d < 3 then some (pr, d) else none
  | some (p, bd) => if d < bd ∧ d < 3 then some (pr, d) else some (p, bd)

/-- The shortcut search of `pick_scenarios`: the best pair of sampled
middle-third indices whose direct distance is under 3 km, if any. -/
def shortcutSearch (dist : RoutePoint → RoutePoint → ℚ)
    (points : List RoutePoint) : Option (ℕ × ℕ) :=
  ((consideredPairs points).foldl (scStep dist points) none).map (fun r => r.1)

/-- Scenario block 1 of `pick_scenarios` (FLATTER): bracket the biggest-gain
climb with a 200-index margin, clamped to the sequence bounds (Python's
`max(0, x - 200)` is truncated subtraction on `ℕ`).  Empty when no climb
qualifies. -/
def flatterScenarios (points : List RoutePoint) : List AlternativeScenario :=
  match pyMax (fun c => c.2.2) (findClimbSegments points 100 50) with
  | none => []
  | some biggest =>
    [{ query_value := "flatter"
       label := "Valley bypass"
       diverge_index := biggest.1 - 200
       rejoin_index := min (points.length - 1) (biggest.2.1 + 200)
       avoid_features := []
       preference := "recommended"
       ors_profile := "cycling-regular"
       extra_waypoints := [] }]

/-- Scenario block 2 of `pick_scenarios` (SHORTER): the shortcut pair when
one qualifies, else the fixed 1/3 – 2/3 split. -/
def shorterScenario (dist : RoutePoint → RoutePoint → ℚ)
    (points : List RoutePoint) : AlternativeScenario :=
  match shortcutSearch dist points with
  | some pr =>
    { query_value := "shorter"
      label := "Direct shortcut"
      diverge_index := pr.1
      rejoin_index := pr.2
      avoid_features := []
      preference := "shortest"
      ors_profile := "cycling-regular"
      extra_waypoints := [] }
  | none =>
    { query_value := "shorter"
      label := "Direct shortcut"
      diverge_index := points.length / 3
      rejoin_index := 2 * points.length / 3
      avoid_features := []
      preference := "shortest"
      ors_profile := "cycling-regular"
      extra_waypoints := [] }

/-- Scenario block 3 of `pick_scenarios` (PAVED): bracket the extracted
sector of greatest `distance_m` with a 150-index margin, clamped to the
sequence bounds.  Empty when no sector was extracted. -/
def pavedScenarios (points : List RoutePoint) (segments : Segments) :
    List AlternativeScenario :=
  match pyMax (fun s => s.distance_m.getD 0) (findGravelSectors segments) with
  | none => []
  | some longestGravel =>
    [{ query_value := "paved"
       label := "Paved bypass"
       diverge_index := longestGravel.from_index - 150
       rejoin_index := min (points.length - 1) (longestGravel.to_index + 150)
       avoid_features := []
       preference := "recommended"
       ors_profile := "cycling-road"
       extra_waypoints := [] }]

/-- Elevation span (max − min) of the altitude window
`[points[i].alt, ..., points[i+window-1].alt]` used by the flatness scan. -/
def altVar (points : List RoutePoint) (i window : ℕ) : ℚ :=
  let alts := (List.range window).map fun k => (points.getD (i + k) default).alt
  alts.foldl max (alts.headD 0) - alts.foldl min (alts.headD 0)

/-- One step of the flatness scan: keep the window start of smallest
variation seen so far (`none` plays the initial `inf`). -/
def flatStep (points : List RoutePoint) (acc : ℕ × Option ℚ) (i : ℕ) :
    ℕ × Option ℚ :=
  let var := altVar points i 300
  match acc.2 with
  | none => (i, some var)
  | some bestVar => if var < bestVar then (i, some var) else acc

/-- The flatness scan of `pick_scenarios`: slide a 300-point window at
stride 50 over the first third, returning the window start of minimal
elevation variation (`0` with variation `inf` when the scan is empty). -/
def flattestStart (points : List RoutePoint) : ℕ :=
  let firstThirdEnd := points.length / 3
  ((pyRange 0 (firstThirdEnd - 300) 50).foldl (flatStep points)
    ((0 : ℕ), (none : Option ℚ))).1

/-- Scenario block 4 of `pick_scenarios` (SCENIC): the flattest first-third
window, with the diverge index clamped to at least 50. -/
def scenicScenario (points : List RoutePoint) : AlternativeScenario :=
  { query_value := "scenic"
    label := "Hilltop village detour"
    diverge_index := max 50 (flattestStart points)
    rejoin_index := min (points.length - 1) (flattestStart points + 300)
    avoid_features := []
    preference := "recommended"
    ors_profile := "cycling-regular"
    extra_waypoints := [] }

/-- `max(range(len(points)), key=lambda i: points[i].alt)`: the first index of
globally maximal altitude. -/
def highestIdx (points : List RoutePoint) : ℕ :=
  (pyMax (fun i => (points.getD i default).alt) (List.range points.length)).getD 0

/-- Scenario block 5 of `pick_scenarios` (SHELTERED): bracket the globally
highest point with a 300-index margin, clamped to the sequence bounds. -/
def shelteredScenario (points : List RoutePoint) : AlternativeScenario :=
  { query_value := "sheltered"
    label := "Valley shelter route"
    diverge_index := highestIdx points - 300
    rejoin_index := min (points.length - 1) (highestIdx points + 300)
    avoid_features := []
    preference := "recommended"
    ors_profile := "cycling-regular"
    extra_waypoints := [] }

/-- Source `pick_scenarios`: the five scenario blocks in source order
(flatter, shorter, paved, scenic, sheltered), the conditional ones
contributing nothing when their feature is absent. -/
def pickScenarios (dist : RoutePoint → RoutePoint → ℚ)
    (points : List RoutePoint) (segments : Segments) :
    List AlternativeScenario :=
  flatterScenarios points ++ [shorterScenario dist points] ++
    pavedScenarios points segments ++ [scenicScenario points] ++
    [shelteredScenario points]

/-- A coordinate of a generated alternative geometry (real-valued: the mock
coordinates involve `sin`). -/
structure Coord3 where
  lat : ℝ
  lng : ℝ
  alt : ℝ

/-- The route-data dictionary consumed by `build_alternative_entry`: the
degenerate mock carries only `coordinates`, `distance_m` and `mock`, so the
keys read via `dict.get` are optional. -/
structure RouteData where
  coordinates : List Coord3
  distance_m : ℤ
  duration_s : Option ℤ
  ascent_m : Option ℤ
  descent_m : Option ℤ
  mock : Bool

open Classical in
/-- Python `round(x)` over an exact real value: round half to even. -/
noncomputable def pyRoundIntR (x : ℝ) : ℤ :=
  let n := ⌊x⌋
  if x - n < 1/2 then n
  else if 1/2 < x - n then n + 1
  else if n % 2 = 0 then n else n + 1

/-- Python `round(x, 6)` over an exact real value. -/
noncomputable def pyRound6R (x : ℝ) : ℝ :=
  (pyRoundIntR (x * 1000000) : ℝ) / 1000000

/-- Python `round(x, 1)` over an exact real value. -/
noncomputable def pyRound1R (x : ℝ) : ℝ :=
  (pyRoundIntR (x * 10) : ℝ) / 10

/-- Sum of consecutive pairwise distances along a point list (the generator
expressions `sum(haversine(seg[i], seg[i+1]) for i ...)` of the source),
under the metric parameter `dist`. -/
def segDistance (dist : RoutePoint → RoutePoint → ℚ) :
    List RoutePoint → ℚ
  | [] => 0
  | [_] => 0
  | p :: q :: rest => dist p q + segDistance dist (q :: rest)

/-- Sum of the positive elevation deltas along a point list. -/
def segAscent : List RoutePoint → ℚ
  | [] => 0
  | [_] => 0
  | p :: q :: rest => max 0 (q.alt - p.alt) + segAscent (q :: rest)

/-- The bracketed original segment `points[diverge : rejoin + 1]`
(Python slice semantics: empty when `diverge > rejoin`). -/
def origSegment (points : List RoutePoint) (scenario : AlternativeScenario) :
    List RoutePoint :=
  (points.drop scenario.diverge_index).take
    (scenario.rejoin_index + 1 - scenario.diverge_index)

/-- The scenario-specific distance multiplier table of
`generate_mock_alternative` (`dict.get` default `1.0`). -/
def mockMultiplier (q : String) : ℚ :=
  if q = "shorter" then 7/10
  else if q = "flatter" then 23/20
  else if q = "paved" then 21/20
  else if q = "scenic" then 6/5
  else if q = "sheltered" then 11/10
  else 1

/-- Source `generate_mock_alternative`: the synthesized lateral-offset arc.
The degeneracy test `length == 0` is expressed as `dlat² + dlng² = 0` on the
exact rational inputs, which is equivalent to `sqrt (dlat² + dlng²) = 0`.
The metric parameter `dist` stands for `haversine` (see the header). -/
noncomputable def generateMockAlternative (dist : RoutePoint → RoutePoint → ℚ)
    (points : List RoutePoint) (scenario : AlternativeScenario) : RouteData :=
  let diverge := points.getD scenario.diverge_index default
  let rejoin := points.getD scenario.rejoin_index default
  let dlat : ℚ := rejoin.lat - diverge.lat
  let dlng : ℚ := rejoin.lng - diverge.lng
  if dlat ^ 2 + dlng ^ 2 = 0 then
    { coordinates := [], distance_m := 0, duration_s := none,
      ascent_m := none, descent_m := none, mock := true }
  else
    let length : ℝ := Real.sqrt ((dlat : ℝ) ^ 2 + (dlng : ℝ) ^ 2)
    let perpLat : ℝ := -(dlng : ℝ) / length
    let perpLng : ℝ := (dlat : ℝ) / length
    let offsetKm : ℝ := if scenario.query_value = "shorter" then 5/1000 else 15/1000
    let nPoints : ℕ := 30
    let coords : List Coord3 := (List.range (nPoints + 1)).map fun (i : ℕ) =>
      let frac : ℝ := (i : ℝ) / (nPoints : ℝ)
      let lat := (diverge.lat : ℝ) + frac * ((rejoin.lat : ℝ) - (diverge.lat : ℝ)) +
        Real.sin (frac * Real.pi) * perpLat * offsetKm
      let lng := (diverge.lng : ℝ) + frac * ((rejoin.lng : ℝ) - (diverge.lng : ℝ)) +
        Real.sin (frac * Real.pi) * perpLng * offsetKm
      let altLin := (diverge.alt : ℝ) + frac * ((rejoin.alt : ℝ) - (diverge.alt : ℝ))
      let alt :=
        if scenario.query_value = "flatter" ∨ scenario.query_value = "sheltered" then
          let midAlt := ((diverge.alt : ℝ) + (rejoin.alt : ℝ)) / 2
          midAlt + (altLin - midAlt) * (3/10)
        else altLin
      { lat := pyRound6R lat, lng := pyRound6R lng, alt := pyRound1R alt }
    let origDistance : ℚ := segDistance dist (origSegment points scenario)
    let altDistance : ℚ := origDistance * mockMultiplier scenario.query_value
    { coordinates := coords
      distance_m := pyRound (altDistance * 1000)
      duration_s := some (pyRound (altDistance * 1000 / (11/2)))
      ascent_m := some 0
      descent_m := some 0
      mock := true }

/-- Diverge/rejoin annotation of an output record. -/
structure EndpointInfo where
  index : ℕ
  lat : ℚ
  lng : ℚ
  km_from_start : ℚ
deriving DecidableEq, Repr

/-- The `original_segment` stats of an output record. -/
structure OriginalSegmentStats where
  distance_m : ℤ
  ascent_m : ℤ
deriving DecidableEq, Repr

/-- The `alternative` block of an output record. -/
structure AlternativeBlock where
  coordinates : List Coord3
  distance_m : ℤ
  duration_s : ℤ
  ascent_m : ℤ
  descent_m : ℤ
  is_mock : Bool

/-- The `comparison` deltas of an output record. -/
structure ComparisonDeltas where
  distance_delta_m : ℤ
  ascent_delta_m : ℤ
  time_delta_s : ℤ
deriving DecidableEq, Repr

/-- One entry of `route-alternatives.json` (the presentation-only
`description` string is omitted; `surface_info` / `waytype_info` exist only
for live-provider routes, which are not modelled). -/
structure AlternativeRecord where
  query_value : String
  label : String
  diverge : EndpointInfo
  rejoin : EndpointInfo
  original_segment : OriginalSegmentStats
  alternative : AlternativeBlock
  comparison : ComparisonDeltas

/-- Source `build_alternative_entry`: assemble one output record, computing
the original-segment stats over the bracketed index range, the elapsed time
from the two endpoint timestamps (`//` is floor division) and the
alternative-minus-original deltas.  The metric parameter `dist` stands for
`haversine` and `cumKm` for the precomputed cumulative table. -/
def buildAlternativeEntry (dist : RoutePoint → RoutePoint → ℚ)
    (scenario : AlternativeScenario) (routeData : RouteData)
    (points : List RoutePoint) (cumKm : List ℚ) : AlternativeRecord :=
  let diverge := points.getD scenario.diverge_index default
  let rejoin := points.getD scenario.rejoin_index default
  let origSeg := origSegment points scenario
  let origDistance := segDistance dist origSeg
  let origAscent := segAscent origSeg
  let origDurationS := Int.fdiv ((origSeg.getLastD default).t - (origSeg.headD default).t) 1000
  let kmDiverge := cumKm.getD scenario.diverge_index 0
  let kmRejoin := cumKm.getD scenario.rejoin_index 0
  { query_value := scenario.query_value
    label := scenario.label
    diverge :=
      { index := scenario.diverge_index, lat := diverge.lat, lng := diverge.lng,
        km_from_start := pyRound1 kmDiverge }
    rejoin :=
      { index := scenario.rejoin_index, lat := rejoin.lat, lng := rejoin.lng,
        km_from_start := pyRound1 kmRejoin }
    original_segment :=
      { distance_m := pyRound (origDistance * 1000)
        ascent_m := pyRound origAscent }
    alternative :=
      { coordinates := routeData.coordinates
        distance_m := routeData.distance_m
        duration_s := routeData.duration_s.getD 0
        ascent_m := routeData.ascent_m.getD 0
        descent_m := routeData.descent_m.getD 0
        is_mock := routeData.mock }
    comparison :=
      { distance_delta_m := routeData.distance_m - pyRound (origDistance * 1000)
        ascent_delta_m := routeData.ascent_m.getD 0 - pyRound origAscent
        time_delta_s := routeData.duration_s.getD 0 - origDurationS } }

/-- Spec-side altitude policy for the synthesized arc endpoints: for the
flatter and sheltered scenarios the altitude is pulled 70 % toward the
endpoint-average, otherwise it is left unchanged (used to state what the
synthesizer produces at its endpoints). -/
noncomputable def flattenAlt (q : String) (a b x : ℝ) : ℝ :=
  if q = "flatter" ∨ q = "sheltered" then (a + b) / 2 + (x - (a + b) / 2) * (3/10) else x

/-- A synthetic strictly monotonic ascent: 60 points, altitude `2.5 k` for
`k < 59` and `150` at `k = 59`, so the total gain is exactly 150 m. -/
def ascent60 : List RoutePoint :=
  (List.range 60).map fun k =>
    { lat := 0, lng := 0, alt := if k = 59 then 150 else 5/2 * k, t := 0 }

/-- A synthetic gentle ascent: 60 points climbing 0.5 m per step, so every
run accumulates at most 29.5 m of gain. -/
def flat60 : List RoutePoint :=
  (List.range 60).map fun k => { lat := 0, lng := 0, alt := 1/2 * k, t := 0 }

/-- The constant-zero metric (any metric works where the claim is
metric-independent). -/
def distZero (_ _ : RoutePoint) : ℚ := 0

/-- An empty sector annotation. -/
def segsEmpty : Segments := { named_sectors := [], gravel_sectors := [] }

/-- A 10-point route (too short for the scenic clamp to stay in range). -/
def ptsShort : List RoutePoint :=
  List.replicate 10 { lat := 0, lng := 0, alt := 0, t := 0 }

/-- A 52-point route (the smallest length for which every scenario's
diverge/rejoin pair is well-formed). -/
def ptsW6 : List RoutePoint :=
  List.replicate 52 { lat := 0, lng := 0, alt := 0, t := 0 }

/-- A single well-formed gravel sector inside a 52-point route. -/
def segsW6 : Segments :=
  { named_sectors := [], gravel_sectors := [⟨10, 20, some 100, none⟩] }

/-- A 400-point route for the paved-scenario exhibit. -/
def ptsW7 : List RoutePoint :=
  List.replicate 400 { lat := 0, lng := 0, alt := 0, t := 0 }

/-- Two sectors of different lengths; the 160 m gravel sector is the
longest. -/
def segsW7 : Segments :=
  { named_sectors := [⟨100, 110, some 50, some "Monteaperti"⟩]
    gravel_sectors := [⟨200, 220, some 160, none⟩] }

/-- A two-point route climbing from altitude 0 to 100. -/
def ptsC8 : List RoutePoint :=
  [{ lat := 0, lng := 0, alt := 0, t := 0 }, { lat := 1, lng := 0, alt := 100, t := 0 }]

/-- A flatter scenario over `ptsC8`: its endpoint altitudes get flattened. -/
def scC8 : AlternativeScenario :=
  { query_value := "flatter", label := "Valley bypass", diverge_index := 0,
    rejoin_index := 1, avoid_features := [], preference := "recommended",
    ors_profile := "cycling-regular", extra_waypoints := [] }

/-- A two-point route with equal altitudes. -/
def ptsC8w : List RoutePoint :=
  [{ lat := 0, lng := 0, alt := 0, t := 0 }, { lat := 1, lng := 0, alt := 0, t := 0 }]

/-- A scenic scenario over `ptsC8w` (no altitude flattening). -/
def scC8w : AlternativeScenario :=
  { query_value := "scenic", label := "Hilltop village detour", diverge_index := 0,
    rejoin_index := 1, avoid_features := [], preference := "recommended",
    ors_profile := "cycling-regular", extra_waypoints := [] }

/-- A two-point route with distinct timestamps, for the comparison-builder
exhibit. -/
def ptsC2 : List RoutePoint :=
  [{ lat := 0, lng := 0, alt := 0, t := 0 }, { lat := 0, lng := 1, alt := 7, t := 2500 }]

/-- A scenario bracketing the whole of `ptsC2`. -/
def scC2 : AlternativeScenario :=
  { query_value := "shorter", label := "Direct shortcut", diverge_index := 0,
    rejoin_index := 1, avoid_features := [], preference := "shortest",
    ors_profile := "cycling-regular", extra_waypoints := [] }

/-- A ready-made alternative geometry record for the comparison-builder
exhibit. -/
def rdC2 : RouteData :=
  { coordinates := [], distance_m := 10, duration_s := some 20,
    ascent_m := some 3, descent_m := some 4, mock := false }

/-- A one-point route: its only scenario endpoints coincide. -/
def ptsC9 : List RoutePoint := [{ lat := 5, lng := 6, alt := 7, t := 8 }]

/-- A degenerate scenario on `ptsC9`: diverge and rejoin are the same
point. -/
def scC9 : AlternativeScenario :=
  { query_value := "sheltered", label := "Valley shelter route", diverge_index := 0,
    rejoin_index := 0, avoid_features := [], preference := "recommended",
    ors_profile := "cycling-regular", extra_waypoints := [] }

lemma mem_pyRange {a b s x : ℕ} (hs : 0 < s) (hx : x ∈ pyRange a b s) :
    a ≤ x ∧ x < b ∧ ∃ k, x = a + s * k := by
  unfold pyRange at hx
  rw [List.mem_range'] at hx
  obtain ⟨i, hi, rfl⟩ := hx
  refine ⟨Nat.le_add_right _ _, ?_, ⟨i, rfl⟩⟩
  have h1 : (i + 1) * s ≤ ((b - a + s - 1) / s) * s :=
    Nat.mul_le_mul_right s (Nat.succ_le_of_lt hi)
  have h2 : ((b - a + s - 1) / s) * s ≤ b - a + s - 1 :=
    Nat.div_mul_le_self _ _
  have h3 : (i + 1) * s = s * i + s := by ring
  omega

lemma foldl_pick_mem {α : Type} (key : α → ℚ) :
    ∀ (xs : List α) (b : α),
      xs.foldl (fun b y => if key b < key y then y else b) b = b ∨
        xs.foldl (fun b y => if key b < key y then y else b) b ∈ xs := by
  intro xs
  induction xs with
  | nil => intro b; left; rfl
  | cons y ys ih =>
    intro b
    rcases ih (if key b < key y then y else b) with h | h
    · rw [List.foldl_cons, h]
      by_cases hk : key b < key y
      · right; simp [hk]
      · left; simp [hk]
    · right; rw [List.foldl_cons]; exact List.mem_cons_of_mem _ h

lemma foldl_pick_le {α : Type} (key : α → ℚ) :
    ∀ (xs : List α) (b : α),
      key b ≤ key (xs.foldl (fun b y => if key b < key y then y else b) b) ∧
        ∀ y ∈ xs, key y ≤ key (xs.foldl (fun b y => if key b < key y then y else b) b) := by
  intro xs
  induction xs with
  | nil => intro b; exact ⟨le_refl _, by simp⟩
  | cons y ys ih =>
    intro b
    rw [List.foldl_cons]
    obtain ⟨h1, h2⟩ := ih (if key b < key y then y else b)
    have hb : key b ≤ key (if key b < key y then y else b) := by
      by_cases hk : key b < key y
      · simp [hk]; exact le_of_lt hk
      · simp [hk]
    have hy : key y ≤ key (if key b < key y then y else b) := by
      by_cases hk : key b < key y
      · simp [hk]
      · simp [hk]; exact le_of_not_lt hk
    refine ⟨le_trans hb h1, ?_⟩
    intro z hz
    rcases List.mem_cons.mp hz with rfl | hz
    · exact le_trans hy h1
    · exact h2 z hz

lemma pyMax_eq_none {α : Type} (key : α → ℚ) (l : List α) :
    pyMax key l = none ↔ l = [] := by
  cases l <;> simp [pyMax]

lemma pyMax_mem {α : Type} {key : α → ℚ} {l : List α} {x : α}
    (h : pyMax key l = some x) : x ∈ l := by
  cases l with
  | nil => simp [pyMax] at h
  | cons y ys =>
    simp only [pyMax, Option.some.injEq] at h
    subst h
    rcases foldl_pick_mem key ys y with h | h
    · rw [h]; exact List.mem_cons_self _ _
    · exact List.mem_cons_of_mem _ h

lemma pyMax_le {α : Type} {key : α → ℚ} {l : List α} {x : α}
    (h : pyMax key l = some x) : ∀ y ∈ l, key y ≤ key x := by
  cases l with
  | nil => simp
  | cons z zs =>
    simp only [pyMax, Option.some.injEq] at h
    subst h
    intro y hy
    obtain ⟨h1, h2⟩ := foldl_pick_le key zs z
    rcases List.mem_cons.mp hy with rfl | hy
    · exact h1
    · exact h2 y hy

lemma climbInner_ge (points : List RoutePoint) :
    ∀ (fuel j : ℕ) (gain : ℚ), j ≤ (climbInner points fuel j gain).1 := by
  intro fuel
  induction fuel with
  | zero => intro j gain; exact le_refl _
  | succ n ih =>
    intro j gain
    rw [climbInner]
    by_cases h1 : j < points.length - 1
    · rw [if_pos h1]
      by_cases h2 : (0 : ℚ) <
          (points.getD (j + 1) default).alt - (points.getD j default).alt
      · simp only [if_pos h2]
        exact le_trans (Nat.le_succ j) (ih (j + 1) _)
      · simp only [if_neg h2]
        by_cases h3 : (10 : ℚ) <
            |(points.getD (j + 1) default).alt - (points.getD j default).alt|
        · rw [if_pos h3]
        · simp only [if_neg h3]
          exact le_trans (Nat.le_succ j) (ih (j + 1) _)
    · rw [if_neg h1]

lemma climbInner_le (points : List RoutePoint) :
    ∀ (fuel j : ℕ) (gain : ℚ),
      (climbInner points fuel j gain).1 ≤ max j (points.length - 1) := by
  intro fuel
  induction fuel with
  | zero => intro j gain; exact le_max_left _ _
  | succ n ih =>
    intro j gain
    rw [climbInner]
    by_cases h1 : j < points.length - 1
    · rw [if_pos h1]
      have step : ∀ g : ℚ,
          (climbInner points n (j + 1) g).1 ≤ max j (points.length - 1) := by
        intro g
        refine le_trans (ih (j + 1) g) ?_
        have : max (j + 1) (points.length - 1) = points.length - 1 := by omega
        rw [this]
        exact le_max_right _ _
      by_cases h2 : (0 : ℚ) <
          (points.getD (j + 1) default).alt - (points.getD j default).alt
      · simp only [if_pos h2]; exact step _
      · simp only [if_neg h2]
        by_cases h3 : (10 : ℚ) <
            |(points.getD (j + 1) default).alt - (points.getD j default).alt|
        · simp only [if_pos h3]; exact le_max_left _ _
        · simp only [if_neg h3]; exact step _
    · rw [if_neg h1]; exact le_max_left _ _

lemma climbOuter_mem (points : List RoutePoint) (minGain : ℚ) (window : ℕ) :
    ∀ (fuel i : ℕ) (c : ℕ × ℕ × ℚ), c ∈ climbOuter points minGain window fuel i →
      minGain ≤ c.2.2 ∧ window ≤ c.2.1 - c.1 ∧ c.1 < points.length - window ∧
        c.1 ≤ c.2.1 ∧ c.2.1 ≤ points.length - 1 := by
  intro fuel
  induction fuel with
  | zero => intro i c hc; simp [climbOuter] at hc
  | succ n ih =>
    intro i c hc
    rw [climbOuter] at hc
    by_cases h1 : i < points.length - window
    · rw [if_pos h1] at hc
      by_cases h2 : minGain ≤ (climbInner points points.length i 0).2 ∧
          window ≤ (climbInner points points.length i 0).1 - i
      · rw [if_pos h2] at hc
        rcases List.mem_cons.mp hc with rfl | hc
        · have hle := climbInner_le points points.length i 0
          have hge := climbInner_ge points points.length i 0
          refine ⟨h2.1, h2.2, h1, ?_, ?_⟩ <;> dsimp only <;> omega
        · exact ih _ c hc
      · rw [if_neg h2] at hc
        exact ih _ c hc
    · rw [if_neg h1] at hc
      simp at hc

lemma scStep_none_pos {dist points x} (hd : pairD dist points x < 3) :
    scStep dist points none x = some (x, pairD dist points x) := by
  simp [scStep, hd]

lemma scStep_none_neg {dist points x} (hd : ¬ pairD dist points x < 3) :
    scStep dist points none x = none := by
  simp [scStep, hd]

lemma scStep_some_pos {dist points x p0 b0}
    (hd : pairD dist points x < b0 ∧ pairD dist points x < 3) :
    scStep dist points (some (p0, b0)) x = some (x, pairD dist points x) := by
  simp [scStep, hd]

lemma scStep_some_neg {dist points x p0 b0}
    (hd : ¬ (pairD dist points x < b0 ∧ pairD dist points x < 3)) :
    scStep dist points (some (p0, b0)) x = some (p0, b0) := by
  simp [scStep]
  intro h1 h2
  exact absurd ⟨h1, h2⟩ hd

lemma scFold_some (dist : RoutePoint → RoutePoint → ℚ) (points : List RoutePoint) :
    ∀ (l : List (ℕ × ℕ)) (acc : Option ((ℕ × ℕ) × ℚ)) (p : ℕ × ℕ) (b : ℚ),
      (∀ q c, acc = some (q, c) → c < 3) →
      l.foldl (scStep dist points) acc = some (p, b) →
      b < 3 ∧ (∀ q ∈ l, b ≤ pairD dist points q) ∧
        (∀ q c, acc = some (q, c) → b ≤ c) ∧
        (acc = some (p, b) ∨ (p ∈ l ∧ b = pairD dist points p)) := by
  intro l
  induction l with
  | nil =>
    intro acc p b hacc hf
    simp only [List.foldl_nil] at hf
    refine ⟨hacc _ _ hf, by simp, ?_, Or.inl hf⟩
    intro q c hq
    rw [hf] at hq
    injection hq with h
    injection h with h1 h2
    exact h2.le
  | cons x l ih =>
    intro acc p b hacc hf
    rw [List.foldl_cons] at hf
    have hacc' : ∀ q c, scStep dist points acc x = some (q, c) → c < 3 := by
      intro q c hq
      cases acc with
      | none =>
        by_cases hd : pairD dist points x < 3
        · rw [scStep_none_pos hd] at hq
          injection hq with h; injection h with h1 h2
          rw [← h2]; exact hd
        · rw [scStep_none_neg hd] at hq; cases hq
      | some pb =>
        obtain ⟨p0, b0⟩ := pb
        by_cases hd : pairD dist points x < b0 ∧ pairD dist points x < 3
        · rw [scStep_some_pos hd] at hq
          injection hq with h; injection h with h1 h2
          rw [← h2]; exact hd.2
        · rw [scStep_some_neg hd] at hq
          injection hq with h; injection h with h1 h2
          rw [← h2]; exact hacc p0 b0 rfl
    obtain ⟨hb3, hall, hle, horig⟩ := ih (scStep dist points acc x) p b hacc' hf
    have hbx : b ≤ pairD dist points x := by
      cases acc with
      | none =>
        by_cases hd : pairD dist points x < 3
        · exact hle x (pairD dist points x) (scStep_none_pos hd)
        · linarith [le_of_not_lt hd, hb3]
      | some pb =>
        obtain ⟨p0, b0⟩ := pb
        have hb0 : b0 < 3 := hacc p0 b0 rfl
        by_cases hd : pairD dist points x < b0 ∧ pairD dist points x < 3
        · exact hle x (pairD dist points x) (scStep_some_pos hd)
        · have hb0' : b ≤ b0 := hle p0 b0 (scStep_some_neg hd)
          have hnlt : ¬ pairD dist points x < b0 := by
            intro hlt
            exact hd ⟨hlt, lt_trans hlt hb0⟩
          linarith [le_of_not_lt hnlt]
    refine ⟨hb3, ?_, ?_, ?_⟩
    · intro q hq
      rcases List.mem_cons.mp hq with rfl | hq
      · exact hbx
      · exact hall q hq
    · intro q c hq
      subst hq
      by_cases hd : pairD dist points x < c ∧ pairD dist points x < 3
      · have := hle x (pairD dist points x) (scStep_some_pos hd)
        linarith [hd.1]
      · exact hle q c (scStep_some_neg hd)
    · rcases horig with h | h
      · cases acc with
        | none =>
          by_cases hd : pairD dist points x < 3
          · rw [scStep_none_pos hd] at h
            injection h with h'; injection h' with h1 h2
            exact Or.inr ⟨h1 ▸ List.mem_cons_self _ _, h2.symm ▸ (h1 ▸ rfl)⟩
          · rw [scStep_none_neg hd] at h; cases h
        | some pb =>
          obtain ⟨p0, b0⟩ := pb
          by_cases hd : pairD dist points x < b0 ∧ pairD dist points x < 3
          · rw [scStep_some_pos hd] at h
            injection h with h'; injection h' with h1 h2
            exact Or.inr ⟨h1 ▸ List.mem_cons_self _ _, h2.symm ▸ (h1 ▸ rfl)⟩
          · rw [scStep_some_neg hd] at h
            exact Or.inl h
      · exact Or.inr ⟨List.mem_cons_of_mem _ h.1, h.2⟩

lemma consideredPairs_mem {points : List RoutePoint} {i j : ℕ}
    (h : (i, j) ∈ consideredPairs points) :
    points.length / 3 ≤ i ∧ i < 2 * points.length / 3 ∧
      i + 400 ≤ j ∧ j < min (i + 1000) (2 * points.length / 3) ∧
      (∃ a, i = points.length / 3 + 100 * a) ∧ ∃ b, j = i + 400 + 100 * b := by
  unfold consideredPairs at h
  rw [List.mem_flatMap] at h
  obtain ⟨i', hi', hj⟩ := h
  rw [List.mem_map] at hj
  obtain ⟨j', hj', hpair⟩ := hj
  injection hpair with h1 h2
  subst h1; subst h2
  obtain ⟨hi1, hi2, a, ha⟩ := mem_pyRange (by omega) hi'
  obtain ⟨hj1, hj2, b, hb⟩ := mem_pyRange (by omega) hj'
  exact ⟨hi1, hi2, hj1, hj2, ⟨a, ha⟩, ⟨b, hb⟩⟩

lemma shortcutSearch_some {dist : RoutePoint → RoutePoint → ℚ}
    {points : List RoutePoint} {p : ℕ × ℕ}
    (h : shortcutSearch dist points = some p) :
    p ∈ consideredPairs points ∧ pairD dist points p < 3 ∧
      ∀ q ∈ consideredPairs points, pairD dist points p ≤ pairD dist points q := by
  unfold shortcutSearch at h
  rw [Option.map_eq_some'] at h
  obtain ⟨⟨p', b⟩, hf, hp⟩ := h
  dsimp at hp
  subst hp
  obtain ⟨hb3, hall, _, horig⟩ :=
    scFold_some dist points (consideredPairs points) none p' b (by simp) hf
  rcases horig with h | h
  · cases h
  · exact ⟨h.1, h.2 ▸ hb3, fun q hq => h.2 ▸ hall q hq⟩

lemma haversine_nonneg (lat1 lon1 lat2 lon2 : ℝ) :
    0 ≤ haversine lat1 lon1 lat2 lon2 := by
  simp only [haversine]
  exact mul_nonneg (by norm_num) (Real.arcsin_nonneg.mpr (Real.sqrt_nonneg _))

lemma havP_nonneg (p q : RoutePoint) : 0 ≤ havP p q :=
  haversine_nonneg _ _ _ _

lemma cumAux_head_ge (q : RoutePoint) (rest : List RoutePoint)
    (prev : RoutePoint) (acc : ℝ) :
    acc ≤ (cumAux prev acc (q :: rest)).getD 0 0 := by
  simp only [cumAux, List.getD_cons_zero]
  exact le_add_of_nonneg_right (havP_nonneg _ _)

lemma cumAux_mono :
    ∀ (rest : List RoutePoint) (prev : RoutePoint) (acc : ℝ) (i : ℕ),
      i + 1 < (cumAux prev acc rest).length →
      (cumAux prev acc rest).getD i 0 ≤ (cumAux prev acc rest).getD (i + 1) 0 := by
  intro rest
  induction rest with
  | nil => intro prev acc i h; simp [cumAux] at h
  | cons q rest ih =>
    intro prev acc i h
    simp only [cumAux] at h ⊢
    cases i with
    | zero =>
      simp only [List.getD_cons_zero, List.getD_cons_succ]
      cases rest with
      | nil => simp [cumAux] at h
      | cons r rest' => exact le_trans (le_refl _) (cumAux_head_ge r rest' q _)
    | succ k =>
      simp only [List.getD_cons_succ]
      exact ih q _ k (by simpa using h)

lemma flatStep_fst (points : List RoutePoint) (acc : ℕ × Option ℚ) (i : ℕ) :
    (flatStep points acc i).1 = acc.1 ∨ (flatStep points acc i).1 = i := by
  obtain ⟨a1, a2⟩ := acc
  cases a2 with
  | none => right; rfl
  | some bv =>
    by_cases hv : altVar points i 300 < bv
    · right; simp [flatStep, hv]
    · left; simp [flatStep, hv]

lemma foldl_flatStep_fst (points : List RoutePoint) :
    ∀ (l : List ℕ) (acc : ℕ × Option ℚ),
      (l.foldl (flatStep points) acc).1 = acc.1 ∨
        (l.foldl (flatStep points) acc).1 ∈ l := by
  intro l
  induction l with
  | nil => intro acc; left; rfl
  | cons x l ih =>
    intro acc
    rw [List.foldl_cons]
    rcases ih (flatStep points acc x) with h | h
    · rw [h]
      rcases flatStep_fst points acc x with h' | h'
      · left; exact h'
      · right; rw [h']; exact List.mem_cons_self _ _
    · right; exact List.mem_cons_of_mem _ h

lemma flattestStart_cases (points : List RoutePoint) :
    flattestStart points = 0 ∨
      flattestStart points ∈ pyRange 0 (points.length / 3 - 300) 50 := by
  unfold flattestStart
  exact foldl_flatStep_fst points _ _

lemma origSegment_head {points : List RoutePoint} {sc : AlternativeScenario}
    (h1 : sc.diverge_index ≤ sc.rejoin_index)
    (h2 : sc.diverge_index < points.length) :
    (origSegment points sc).headD default = points.getD sc.diverge_index default := by
  unfold origSegment
  rw [List.headD_eq_head?, List.head?_eq_getElem?, List.getElem?_take,
    if_pos (by omega), List.getElem?_drop, Nat.add_zero,
    List.getD_eq_getElem?_getD]

lemma origSegment_last {points : List RoutePoint} {sc : AlternativeScenario}
    (h1 : sc.diverge_index ≤ sc.rejoin_index)
    (h2 : sc.rejoin_index < points.length) :
    (origSegment points sc).getLastD default = points.getD sc.rejoin_index default := by
  unfold origSegment
  rw [List.getLastD_eq_getLast?, List.getLast?_eq_getElem?]
  have hlen : ((points.drop sc.diverge_index).take
      (sc.rejoin_index + 1 - sc.diverge_index)).length =
      sc.rejoin_index + 1 - sc.diverge_index := by
    rw [List.length_take, List.length_drop]
    omega
  rw [hlen]
  have hidx : sc.rejoin_index + 1 - sc.diverge_index - 1 =
      sc.rejoin_index - sc.diverge_index := by omega
  rw [hidx, List.getElem?_take, if_pos (by omega), List.getElem?_drop]
  have : sc.diverge_index + (sc.rejoin_index - sc.diverge_index) = sc.rejoin_index := by
    omega
  rw [this, List.getD_eq_getElem?_getD]

lemma scFold_none (dist : RoutePoint → RoutePoint → ℚ) (points : List RoutePoint) :
    ∀ (l : List (ℕ × ℕ)) (acc : Option ((ℕ × ℕ) × ℚ)),
      l.foldl (scStep dist points) acc = none →
      acc = none ∧ ∀ q ∈ l, ¬ pairD dist points q < 3 := by
  intro l
  induction l with
  | nil => intro acc hf; simpa using hf
  | cons x l ih =>
    intro acc hf
    rw [List.foldl_cons] at hf
    obtain ⟨hstep, hall⟩ := ih _ hf
    have hx : acc = none ∧ ¬ pairD dist points x < 3 := by
      cases acc with
      | none =>
        by_cases hd : pairD dist points x < 3
        · rw [scStep_none_pos hd] at hstep; cases hstep
        · exact ⟨rfl, hd⟩
      | some pb =>
        obtain ⟨p0, b0⟩ := pb
        by_cases hd : pairD dist points x < b0 ∧ pairD dist points x < 3
        · rw [scStep_some_pos hd] at hstep; cases hstep
        · rw [scStep_some_neg hd] at hstep; cases hstep
    refine ⟨hx.1, ?_⟩
    intro q hq
    rcases List.mem_cons.mp hq with rfl | hq
    · exact hx.2
    · exact hall q hq

lemma shortcutSearch_none {dist : RoutePoint → RoutePoint → ℚ}
    {points : List RoutePoint} (h : shortcutSearch dist points = none) :
    ∀ q ∈ consideredPairs points, ¬ pairD dist points q < 3 := by
  unfold shortcutSearch at h
  rw [Option.map_eq_none'] at h
  exact (scFold_none dist points _ _ h).2

/-- C2: for every record assembled by the comparison builder, the deltas are
exactly alternative minus original: `distance_delta_m` is the alternative's
`distance_m` minus the record's `original_segment.distance_m`,
`ascent_delta_m` is the alternative's `ascent_m` minus the rounded
original-segment ascent (positive elevation deltas over the bracketed range),
and `time_delta_s` is the alternative's `duration_s` minus the elapsed time
computed from the recorded timestamps of the segment's two endpoints. -/
theorem C2_comparison_deltas (dist : RoutePoint → RoutePoint → ℚ)
    (scenario : AlternativeScenario) (routeData : RouteData)
    (points : List RoutePoint) (cumKm : List ℚ)
    (h1 : scenario.diverge_index ≤ scenario.rejoin_index)
    (h2 : scenario.rejoin_index < points.length) :
    (buildAlternativeEntry dist scenario routeData points cumKm).comparison.distance_delta_m =
      (buildAlternativeEntry dist scenario routeData points cumKm).alternative.distance_m -
        (buildAlternativeEntry dist scenario routeData points cumKm).original_segment.distance_m ∧
    (buildAlternativeEntry dist scenario routeData points cumKm).comparison.ascent_delta_m =
      (buildAlternativeEntry dist scenario routeData points cumKm).alternative.ascent_m -
        pyRound (segAscent (origSegment points scenario)) ∧
    (buildAlternativeEntry dist scenario routeData points cumKm).original_segment.ascent_m =
      pyRound (segAscent (origSegment points scenario)) ∧
    (buildAlternativeEntry dist scenario routeData points cumKm).comparison.time_delta_s =
      (buildAlternativeEntry dist scenario routeData points cumKm).alternative.duration_s -
        Int.fdiv ((points.getD scenario.rejoin_index default).t -
          (points.getD scenario.diverge_index default).t) 1000 := by
  refine ⟨rfl, rfl, rfl, ?_⟩
  have hh := origSegment_head h1 (lt_of_le_of_lt h1 h2)
  have hl := origSegment_last h1 h2
  show routeData.duration_s.getD 0 -
      Int.fdiv (((origSegment points scenario).getLastD default).t -
        ((origSegment points scenario).headD default).t) 1000 =
    routeData.duration_s.getD 0 -
      Int.fdiv ((points.getD scenario.rejoin_index default).t -
        (points.getD scenario.diverge_index default).t) 1000
  rw [hh, hl]

/-- Closed instance of `C2_comparison_deltas` on a concrete two-point route
and alternative record. -/
theorem C2_witness :
    scC2.diverge_index ≤ scC2.rejoin_index ∧ scC2.rejoin_index < ptsC2.length ∧
    ((buildAlternativeEntry distZero scC2 rdC2 ptsC2 []).comparison.distance_delta_m =
      (buildAlternativeEntry distZero scC2 rdC2 ptsC2 []).alternative.distance_m -
        (buildAlternativeEntry distZero scC2 rdC2 ptsC2 []).original_segment.distance_m ∧
    (buildAlternativeEntry distZero scC2 rdC2 ptsC2 []).comparison.ascent_delta_m =
      (buildAlternativeEntry distZero scC2 rdC2 ptsC2 []).alternative.ascent_m -
        pyRound (segAscent (origSegment ptsC2 scC2)) ∧
    (buildAlternativeEntry distZero scC2 rdC2 ptsC2 []).original_segment.ascent_m =
      pyRound (segAscent (origSegment ptsC2 scC2)) ∧
    (buildAlternativeEntry distZero scC2 rdC2 ptsC2 []).comparison.time_delta_s =
      (buildAlternativeEntry distZero scC2 rdC2 ptsC2 []).alternative.duration_s -
        Int.fdiv ((ptsC2.getD scC2.rejoin_index default).t -
          (ptsC2.getD scC2.diverge_index default).t) 1000) :=
  ⟨by decide, by decide,
    C2_comparison_deltas distZero scC2 rdC2 ptsC2 [] (by decide) (by decide)⟩

/-- C3: for every non-empty route, the cumulative-distance table starts at
zero and is monotonically non-decreasing. -/
theorem C3_cumulative_table (points : List RoutePoint) (h : points ≠ []) :
    (precomputeCumKm points).getD 0 0 = 0 ∧
    ∀ i : ℕ, i + 1 < (precomputeCumKm points).length →
      (precomputeCumKm points).getD i 0 ≤ (precomputeCumKm points).getD (i + 1) 0 := by
  obtain ⟨p, rest, rfl⟩ : ∃ p rest, points = p :: rest := by
    cases points with
    | nil => exact absurd rfl h
    | cons p rest => exact ⟨p, rest, rfl⟩
  constructor
  · simp [precomputeCumKm]
  · intro i hi
    simp only [precomputeCumKm] at hi ⊢
    cases i with
    | zero =>
      simp only [List.getD_cons_zero, List.getD_cons_succ]
      cases rest with
      | nil => simp [cumAux] at hi
      | cons q rest' => exact cumAux_head_ge q rest' p 0
    | succ k =>
      simp only [List.getD_cons_succ]
      refine cumAux_mono rest p 0 k ?_
      simpa using hi

/-- Closed instance of `C3_cumulative_table` on a one-point route. -/
theorem C3_witness :
    ptsC9 ≠ [] ∧
    ((precomputeCumKm ptsC9).getD 0 0 = 0 ∧
      ∀ i : ℕ, i + 1 < (precomputeCumKm ptsC9).length →
        (precomputeCumKm ptsC9).getD i 0 ≤ (precomputeCumKm ptsC9).getD (i + 1) 0) :=
  ⟨by decide, C3_cumulative_table ptsC9 (by decide)⟩

/-- C4: with `minGainMeters = 100` and `minWindowLength = 50`, the climb
detector returns exactly one full-range climb of gain 150 on a monotonic
60-point ascent totalling 150 m, returns nothing when every run's gain stays
below the threshold, and in general every returned run has accumulated gain
at least `minGain` and length at least `window`. -/
theorem C4_climb_detector :
    findClimbSegments ascent60 100 50 = [(0, 59, 150)] ∧
    findClimbSegments flat60 100 50 = [] ∧
    ∀ (points : List RoutePoint) (minGain : ℚ) (window : ℕ) (c : ℕ × ℕ × ℚ),
      c ∈ findClimbSegments points minGain window →
      minGain ≤ c.2.2 ∧ window ≤ c.2.1 - c.1 := by
  refine ⟨by with_unfolding_all decide, by with_unfolding_all decide, ?_⟩
  intro points minGain window c hc
  have hm := climbOuter_mem points minGain window points.length 0 c hc
  exact ⟨hm.1, hm.2.1⟩

/-- Closed instance of the qualification clause of `C4_climb_detector` at the
climb the detector finds on the synthetic ascent. -/
theorem C4_witness :
    ((0, 59, (150 : ℚ)) ∈ findClimbSegments ascent60 100 50) ∧
    ((100 : ℚ) ≤ (0, 59, (150 : ℚ)).2.2 ∧ 50 ≤ (0, 59, (150 : ℚ)).2.1 - (0, 59, (150 : ℚ)).1) :=
  ⟨by with_unfolding_all decide,
    C4_climb_detector.2.2 ascent60 100 50 (0, 59, 150) (by with_unfolding_all decide)⟩

/-- C10: every synthesized alternative reports zero ascent and descent
(the degenerate one by omitting the keys, which are read back as 0), so the
ascent delta of any record built from a synthesized alternative is exactly
the negated rounded original-segment ascent. -/
theorem C10_mock_zero_ascent (dist : RoutePoint → RoutePoint → ℚ)
    (points : List RoutePoint) (scenario : AlternativeScenario) (cumKm : List ℚ) :
    (generateMockAlternative dist points scenario).ascent_m.getD 0 = 0 ∧
    (generateMockAlternative dist points scenario).descent_m.getD 0 = 0 ∧
    (buildAlternativeEntry dist scenario (generateMockAlternative dist points scenario)
        points cumKm).alternative.ascent_m = 0 ∧
    (buildAlternativeEntry dist scenario (generateMockAlternative dist points scenario)
        points cumKm).comparison.ascent_delta_m =
      -(buildAlternativeEntry dist scenario (generateMockAlternative dist points scenario)
        points cumKm).original_segment.ascent_m := by
  have hasc : (generateMockAlternative dist points scenario).ascent_m.getD 0 = 0 := by
    simp only [generateMockAlternative]
    split
    · rfl
    · rfl
  have hdesc : (generateMockAlternative dist points scenario).descent_m.getD 0 = 0 := by
    simp only [generateMockAlternative]
    split
    · rfl
    · rfl
  refine ⟨hasc, hdesc, hasc, ?_⟩
  show (generateMockAlternative dist points scenario).ascent_m.getD 0 -
      pyRound (segAscent (origSegment points scenario)) =
    -(pyRound (segAscent (origSegment points scenario)))
  rw [hasc]
  exact zero_sub _

/-- C9: when the diverge and rejoin points coincide, the synthesizer returns
the empty geometry with zero distance, and the comparison builder still
assembles a record for it (with deltas equal to the negated original-segment
stats). -/
theorem C9_degenerate_geometry (dist : RoutePoint → RoutePoint → ℚ)
    (points : List RoutePoint) (scenario : AlternativeScenario) (cumKm : List ℚ)
    (h : ((points.getD scenario.rejoin_index default).lat -
            (points.getD scenario.diverge_index default).lat) ^ 2 +
          ((points.getD scenario.rejoin_index default).lng -
            (points.getD scenario.diverge_index default).lng) ^ 2 = 0) :
    generateMockAlternative dist points scenario =
      { coordinates := [], distance_m := 0, duration_s := none,
        ascent_m := none, descent_m := none, mock := true } ∧
    (buildAlternativeEntry dist scenario (generateMockAlternative dist points scenario)
        points cumKm).alternative.coordinates = [] ∧
    (buildAlternativeEntry dist scenario (generateMockAlternative dist points scenario)
        points cumKm).alternative.distance_m = 0 ∧
    (buildAlternativeEntry dist scenario (generateMockAlternative dist points scenario)
        points cumKm).comparison =
      { distance_delta_m := -(pyRound (segDistance dist (origSegment points scenario) * 1000)),
        ascent_delta_m := -(pyRound (segAscent (origSegment points scenario))),
        time_delta_s := -(Int.fdiv (((origSegment points scenario).getLastD default).t -
          ((origSegment points scenario).headD default).t) 1000) } := by
  have hgen : generateMockAlternative dist points scenario =
      { coordinates := [], distance_m := 0, duration_s := none,
        ascent_m := none, descent_m := none, mock := true } := by
    simp only [generateMockAlternative]
    rw [if_pos h]
  refine ⟨hgen, ?_, ?_, ?_⟩
  · rw [hgen]; with_unfolding_all rfl
  · rw [hgen]; with_unfolding_all rfl
  · rw [hgen]
    show ComparisonDeltas.mk
        (0 - pyRound (segDistance dist (origSegment points scenario) * 1000))
        (0 - pyRound (segAscent (origSegment points scenario)))
        (0 - Int.fdiv (((origSegment points scenario).getLastD default).t -
          ((origSegment points scenario).headD default).t) 1000) = _
    rw [zero_sub, zero_sub, zero_sub]

/-- Closed instance of `C9_degenerate_geometry` on a one-point route with a
scenario whose diverge and rejoin indices coincide. -/
theorem C9_witness :
    (((ptsC9.getD scC9.rejoin_index default).lat -
        (ptsC9.getD scC9.diverge_index default).lat) ^ 2 +
      ((ptsC9.getD scC9.rejoin_index default).lng -
        (ptsC9.getD scC9.diverge_index default).lng) ^ 2 = 0) ∧
    (generateMockAlternative distZero ptsC9 scC9 =
      { coordinates := [], distance_m := 0, duration_s := none,
        ascent_m := none, descent_m := none, mock := true } ∧
    (buildAlternativeEntry distZero scC9 (generateMockAlternative distZero ptsC9 scC9)
        ptsC9 []).alternative.coordinates = [] ∧
    (buildAlternativeEntry distZero scC9 (generateMockAlternative distZero ptsC9 scC9)
        ptsC9 []).alternative.distance_m = 0 ∧
    (buildAlternativeEntry distZero scC9 (generateMockAlternative distZero ptsC9 scC9)
        ptsC9 []).comparison =
      { distance_delta_m := -(pyRound (segDistance distZero (origSegment ptsC9 scC9) * 1000)),
        ascent_delta_m := -(pyRound (segAscent (origSegment ptsC9 scC9))),
        time_delta_s := -(Int.fdiv (((origSegment ptsC9 scC9).getLastD default).t -
          ((origSegment ptsC9 scC9).headD default).t) 1000) }) :=
  ⟨by with_unfolding_all decide,
    C9_degenerate_geometry distZero ptsC9 scC9 [] (by with_unfolding_all decide)⟩

/-- C1: for every non-empty route, the selector emits between three and five
scenarios in the fixed order flatter, shorter, paved, scenic, sheltered;
shorter, scenic and sheltered are always present, flatter exactly when the
climb detector (gain 100, window 50) finds a climb, paved exactly when the
sector extractor returns a sector, and absent scenarios are simply omitted. -/
theorem C1_scenario_catalog (dist : RoutePoint → RoutePoint → ℚ)
    (points : List RoutePoint) (segments : Segments) (h : points ≠ []) :
    (pickScenarios dist points segments).map (fun s => s.query_value) =
      (if findClimbSegments points 100 50 = [] then [] else ["flatter"]) ++
        ["shorter"] ++
        (if findGravelSectors segments = [] then [] else ["paved"]) ++
        ["scenic", "sheltered"] ∧
    3 ≤ (pickScenarios dist points segments).length ∧
    (pickScenarios dist points segments).length ≤ 5 := by
  have hshort : (shorterScenario dist points).query_value = "shorter" := by
    unfold shorterScenario
    rcases shortcutSearch dist points with _ | pr <;> rfl
  have hmap : (pickScenarios dist points segments).map (fun s => s.query_value) =
      (if findClimbSegments points 100 50 = [] then [] else ["flatter"]) ++
        ["shorter"] ++
        (if findGravelSectors segments = [] then [] else ["paved"]) ++
        ["scenic", "sheltered"] := by
    rcases hc : pyMax (fun c => c.2.2) (findClimbSegments points 100 50) with _ | biggest <;>
      rcases hp : pyMax (fun s => s.distance_m.getD 0) (findGravelSectors segments) with _ | lg <;>
      simp only [pickScenarios, flatterScenarios, pavedScenarios] <;>
      rw [hc, hp]
    · have hce := (pyMax_eq_none _ _).mp hc
      have hpe := (pyMax_eq_none _ _).mp hp
      simp [scenicScenario, shelteredScenario, hce, hpe, hshort]
    · have hce := (pyMax_eq_none _ _).mp hc
      have hpn : findGravelSectors segments ≠ [] := by
        intro he; rw [he] at hp; simp [pyMax] at hp
      simp [scenicScenario, shelteredScenario, hce, hpn, hshort]
    · have hcn : findClimbSegments points 100 50 ≠ [] := by
        intro he; rw [he] at hc; simp [pyMax] at hc
      have hpe := (pyMax_eq_none _ _).mp hp
      simp [scenicScenario, shelteredScenario, hcn, hpe, hshort]
    · have hcn : findClimbSegments points 100 50 ≠ [] := by
        intro he; rw [he] at hc; simp [pyMax] at hc
      have hpn : findGravelSectors segments ≠ [] := by
        intro he; rw [he] at hp; simp [pyMax] at hp
      simp [scenicScenario, shelteredScenario, hcn, hpn, hshort]
  refine ⟨hmap, ?_, ?_⟩ <;>
  · have hl := congrArg List.length hmap
    rw [List.length_map] at hl
    rw [hl]
    by_cases h1 : findClimbSegments points 100 50 = [] <;>
      by_cases h2 : findGravelSectors segments = [] <;>
        simp [h1, h2]

/-- Closed instance of `C1_scenario_catalog` on a one-point route with no
sectors: exactly the three unconditional scenarios appear, in order. -/
theorem C1_witness :
    ptsC9 ≠ [] ∧
    ((pickScenarios distZero ptsC9 segsEmpty).map (fun s => s.query_value) =
      (if findClimbSegments ptsC9 100 50 = [] then [] else ["flatter"]) ++
        ["shorter"] ++
        (if findGravelSectors segsEmpty = [] then [] else ["paved"]) ++
        ["scenic", "sheltered"] ∧
    3 ≤ (pickScenarios distZero ptsC9 segsEmpty).length ∧
    (pickScenarios distZero ptsC9 segsEmpty).length ≤ 5) :=
  ⟨by decide, C1_scenario_catalog distZero ptsC9 segsEmpty (by decide)⟩

/-- C7: when at least one sector is extracted, the paved scenario brackets a
maximal-length sector among all extracted sectors, with diverge at its start
index minus 150 and rejoin at its end index plus 150, each clamped to the
valid index range. -/
theorem C7_paved_brackets_longest (points : List RoutePoint) (segments : Segments)
    (h : findGravelSectors segments ≠ []) :
    ∃ sec ∈ findGravelSectors segments,
      (∀ s ∈ findGravelSectors segments, s.distance_m.getD 0 ≤ sec.distance_m.getD 0) ∧
      pavedScenarios points segments =
        [{ query_value := "paved", label := "Paved bypass",
           diverge_index := sec.from_index - 150,
           rejoin_index := min (points.length - 1) (sec.to_index + 150),
           avoid_features := [], preference := "recommended",
           ors_profile := "cycling-road", extra_waypoints := [] }] := by
  rcases hp : pyMax (fun s => s.distance_m.getD 0) (findGravelSectors segments) with _ | lg
  · exact absurd ((pyMax_eq_none _ _).mp hp) h
  · refine ⟨lg, pyMax_mem hp, pyMax_le hp, ?_⟩
    simp only [pavedScenarios]
    rw [hp]

/-- Closed instance of `C7_paved_brackets_longest`: over two sectors of
lengths 50 m and 160 m, the paved scenario brackets the 160 m one. -/
theorem C7_witness :
    findGravelSectors segsW7 ≠ [] ∧
    (∃ sec ∈ findGravelSectors segsW7,
      (∀ s ∈ findGravelSectors segsW7, s.distance_m.getD 0 ≤ sec.distance_m.getD 0) ∧
      pavedScenarios ptsW7 segsW7 =
        [{ query_value := "paved", label := "Paved bypass",
           diverge_index := sec.from_index - 150,
           rejoin_index := min (ptsW7.length - 1) (sec.to_index + 150),
           avoid_features := [], preference := "recommended",
           ors_profile := "cycling-road", extra_waypoints := [] }]) :=
  ⟨by with_unfolding_all decide, C7_paved_brackets_longest ptsW7 segsW7 (by with_unfolding_all decide)⟩

/-- C5: the shortcut search only considers pairs (i, j) with i in the middle
third at stride 100 and j between 400 and 1000 indices ahead (stride 100,
never past the middle third's end); any returned pair is a considered pair of
minimal distance, under 3 km; whenever the considered pairs include one at
2 km and one at 5 km, a pair at distance at most 2 km is selected and the
5 km pair is not; and when no pair qualifies the shorter scenario uses the
fixed 1/3 and 2/3 index split. -/
theorem C5_shortcut_search :
    (∀ (dist : RoutePoint → RoutePoint → ℚ) (points : List RoutePoint) (p : ℕ × ℕ),
        shortcutSearch dist points = some p →
        p ∈ consideredPairs points ∧ pairD dist points p < 3 ∧
          ∀ q ∈ consideredPairs points, pairD dist points p ≤ pairD dist points q) ∧
    (∀ (points : List RoutePoint) (i j : ℕ), (i, j) ∈ consideredPairs points →
        points.length / 3 ≤ i ∧ i < 2 * points.length / 3 ∧ i + 400 ≤ j ∧
          j < min (i + 1000) (2 * points.length / 3) ∧
          (∃ a, i = points.length / 3 + 100 * a) ∧ ∃ b, j = i + 400 + 100 * b) ∧
    (∀ (dist : RoutePoint → RoutePoint → ℚ) (points : List RoutePoint) (p2 p5 : ℕ × ℕ),
        p2 ∈ consideredPairs points → p5 ∈ consideredPairs points →
        pairD dist points p2 = 2 → pairD dist points p5 = 5 →
        ∃ p, shortcutSearch dist points = some p ∧
          pairD dist points p ≤ 2 ∧ p ≠ p5) ∧
    (∀ (dist : RoutePoint → RoutePoint → ℚ) (points : List RoutePoint),
        shortcutSearch dist points = none →
        shorterScenario dist points =
          { query_value := "shorter", label := "Direct shortcut",
            diverge_index := points.length / 3,
            rejoin_index := 2 * points.length / 3,
            avoid_features := [], preference := "shortest",
            ors_profile := "cycling-regular", extra_waypoints := [] }) := by
  refine ⟨fun dist points p h => shortcutSearch_some h,
    fun points i j h => consideredPairs_mem h, ?_, ?_⟩
  · intro dist points p2 p5 h2 h5 hd2 hd5
    rcases hs : shortcutSearch dist points with _ | p
    · exact absurd (by rw [hd2]; norm_num) (shortcutSearch_none hs p2 h2)
    · obtain ⟨hmem, hlt, hmin⟩ := shortcutSearch_some hs
      refine ⟨p, rfl, hd2 ▸ hmin p2 h2, ?_⟩
      intro he
      subst he
      rw [hd5] at hlt
      norm_num at hlt
  · intro dist points h
    simp only [shorterScenario]
    rw [h]

/-- Closed instance of the fallback clause of `C5_shortcut_search` on a
10-point route (whose sampled search window is empty). -/
theorem C5_witness :
    shortcutSearch distZero ptsShort = none ∧
    shorterScenario distZero ptsShort =
      { query_value := "shorter", label := "Direct shortcut",
        diverge_index := ptsShort.length / 3,
        rejoin_index := 2 * ptsShort.length / 3,
        avoid_features := [], preference := "shortest",
        ors_profile := "cycling-regular", extra_waypoints := [] } :=
  ⟨by decide, C5_shortcut_search.2.2.2 distZero ptsShort (by decide)⟩

/-- C6 as stated fails: on a 10-point route the scenic scenario has diverge
index 50 (the clamp) but rejoin index 9, so `diverge < rejoin` is violated
(and 50 is not even a valid index). -/
theorem C6_counterexample :
    ∃ sc ∈ pickScenarios distZero ptsShort segsEmpty,
      ¬ (sc.diverge_index < sc.rejoin_index ∧
          sc.rejoin_index ≤ ptsShort.length - 1) := by
  with_unfolding_all decide

/-- C6 amended: on routes of at least 52 points whose extracted sectors are
well-formed (start at most end, end a valid index), every selected scenario
satisfies `diverge_index < rejoin_index ≤ last index` (`0 ≤ diverge_index`
holds by type). -/
theorem C6_amended (dist : RoutePoint → RoutePoint → ℚ)
    (points : List RoutePoint) (segments : Segments)
    (hlen : 52 ≤ points.length)
    (hsec : ∀ s ∈ findGravelSectors segments,
      s.from_index ≤ s.to_index ∧ s.to_index < points.length) :
    ∀ sc ∈ pickScenarios dist points segments,
      sc.diverge_index < sc.rejoin_index ∧
        sc.rejoin_index ≤ points.length - 1 := by
  intro sc hsc
  rw [pickScenarios] at hsc
  simp only [List.mem_append, List.mem_singleton] at hsc
  rcases hsc with ((((hf | hsh) | hp) | hscn) | hshel)
  · rcases hm : pyMax (fun c => c.2.2) (findClimbSegments points 100 50) with _ | biggest
    · simp only [flatterScenarios] at hf
      rw [hm] at hf
      simp at hf
    · simp only [flatterScenarios] at hf
      rw [hm] at hf
      simp only [List.mem_singleton] at hf
      subst hf
      have hb := climbOuter_mem points 100 50 points.length 0 biggest (pyMax_mem hm)
      dsimp only
      omega
  · rcases hs : shortcutSearch dist points with _ | pr
    · simp only [shorterScenario] at hsh
      rw [hs] at hsh
      subst hsh
      dsimp only
      omega
    · simp only [shorterScenario] at hsh
      rw [hs] at hsh
      subst hsh
      obtain ⟨pi, pj⟩ := pr
      have hmem := (shortcutSearch_some hs).1
      have hb := consideredPairs_mem hmem
      dsimp only
      omega
  · rcases hm : pyMax (fun s => s.distance_m.getD 0) (findGravelSectors segments) with _ | lg
    · simp only [pavedScenarios] at hp
      rw [hm] at hp
      simp at hp
    · simp only [pavedScenarios] at hp
      rw [hm] at hp
      simp only [List.mem_singleton] at hp
      subst hp
      have hb := hsec lg (pyMax_mem hm)
      dsimp only
      omega
  · subst hscn
    rcases flattestStart_cases points with h0 | hmem
    · simp only [scenicScenario, h0]
      omega
    · have hb := mem_pyRange (by omega) hmem
      simp only [scenicScenario]
      omega
  · subst hshel
    have hhi : highestIdx points < points.length := by
      unfold highestIdx
      rcases hm : pyMax (fun i => (points.getD i default).alt)
          (List.range points.length) with _ | x
      · have hr := (pyMax_eq_none _ _).mp hm
        rw [List.range_eq_nil] at hr
        omega
      · have hx := pyMax_mem hm
        rw [List.mem_range] at hx
        simpa using hx
    simp only [shelteredScenario]
    omega

/-- Closed instance of `C6_amended` at the scenic scenario of a 52-point
route with one well-formed sector. -/
theorem C6_witness :
    52 ≤ ptsW6.length ∧
    (∀ s ∈ findGravelSectors segsW6,
      s.from_index ≤ s.to_index ∧ s.to_index < ptsW6.length) ∧
    scenicScenario ptsW6 ∈ pickScenarios distZero ptsW6 segsW6 ∧
    (scenicScenario ptsW6).diverge_index < (scenicScenario ptsW6).rejoin_index ∧
    (scenicScenario ptsW6).rejoin_index ≤ ptsW6.length - 1 :=
  ⟨by decide, by decide, by with_unfolding_all decide,
    (C6_amended distZero ptsW6 segsW6 (by decide) (by decide)
      (scenicScenario ptsW6) (by with_unfolding_all decide)).1,
    (C6_amended distZero ptsW6 segsW6 (by decide) (by decide)
      (scenicScenario ptsW6) (by with_unfolding_all decide)).2⟩

lemma mockHead (dist : RoutePoint → RoutePoint → ℚ)
    (points : List RoutePoint) (scenario : AlternativeScenario)
    (h : ((points.getD scenario.rejoin_index default).lat -
            (points.getD scenario.diverge_index default).lat) ^ 2 +
          ((points.getD scenario.rejoin_index default).lng -
            (points.getD scenario.diverge_index default).lng) ^ 2 ≠ 0) :
    (generateMockAlternative dist points scenario).coordinates.head? =
      some { lat := pyRound6R ((points.getD scenario.diverge_index default).lat : ℝ)
             lng := pyRound6R ((points.getD scenario.diverge_index default).lng : ℝ)
             alt := pyRound1R (flattenAlt scenario.query_value
               ((points.getD scenario.diverge_index default).alt : ℝ)
               ((points.getD scenario.rejoin_index default).alt : ℝ)
               ((points.getD scenario.diverge_index default).alt : ℝ)) } := by
  simp only [generateMockAlternative]
  rw [if_neg h]
  rw [List.head?_eq_getElem?, List.getElem?_map, List.getElem?_range (by norm_num)]
  simp only [Option.map_some', Option.some.injEq, Coord3.mk.injEq]
  have h0 : ((0 : ℕ) : ℝ) / ((30 : ℕ) : ℝ) = 0 := by norm_num
  refine ⟨?_, ?_, ?_⟩
  · congr 1
    rw [h0]
    simp
  · congr 1
    rw [h0]
    simp
  · congr 1
    rw [h0, flattenAlt]
    simp

lemma mockLast (dist : RoutePoint → RoutePoint → ℚ)
    (points : List RoutePoint) (scenario : AlternativeScenario)
    (h : ((points.getD scenario.rejoin_index default).lat -
            (points.getD scenario.diverge_index default).lat) ^ 2 +
          ((points.getD scenario.rejoin_index default).lng -
            (points.getD scenario.diverge_index default).lng) ^ 2 ≠ 0) :
    (generateMockAlternative dist points scenario).coordinates.getLast? =
      some { lat := pyRound6R ((points.getD scenario.rejoin_index default).lat : ℝ)
             lng := pyRound6R ((points.getD scenario.rejoin_index default).lng : ℝ)
             alt := pyRound1R (flattenAlt scenario.query_value
               ((points.getD scenario.diverge_index default).alt : ℝ)
               ((points.getD scenario.rejoin_index default).alt : ℝ)
               ((points.getD scenario.rejoin_index default).alt : ℝ)) } := by
  simp only [generateMockAlternative]
  rw [if_neg h]
  rw [List.getLast?_eq_getElem?]
  simp only [List.length_map, List.length_range]
  have h31 : (31 : ℕ) - 1 = 30 := by norm_num
  rw [h31, List.getElem?_map, List.getElem?_range (by norm_num)]
  simp only [Option.map_some', Option.some.injEq, Coord3.mk.injEq]
  have h30 : ((30 : ℕ) : ℝ) / ((30 : ℕ) : ℝ) = 1 := by norm_num
  refine ⟨?_, ?_, ?_⟩
  · congr 1
    rw [h30]
    simp only [one_mul, Real.sin_pi]
    ring
  · congr 1
    rw [h30]
    simp only [one_mul, Real.sin_pi]
    ring
  · congr 1
    rw [h30, flattenAlt]
    by_cases hq : scenario.query_value = "flatter" ∨ scenario.query_value = "sheltered"
    · rw [if_pos hq, if_pos hq]
      ring
    · rw [if_neg hq, if_neg hq]
      ring

/-- C8 as stated fails: the synthesized arc's coordinates are rounded, and
for the flatter (and sheltered) scenarios even the endpoint altitudes are
pulled 70 % toward the segment's mean altitude.  Concretely, on a flatter
scenario from altitude 0 to altitude 100, the arc's first coordinate has
altitude 35, not the diverge point's 0. -/
theorem C8_counterexample :
    ¬ ((generateMockAlternative distZero ptsC8 scC8).coordinates.head? =
        some { lat := ((ptsC8.getD scC8.diverge_index default).lat : ℝ)
               lng := ((ptsC8.getD scC8.diverge_index default).lng : ℝ)
               alt := ((ptsC8.getD scC8.diverge_index default).alt : ℝ) }) := by
  have hh := mockHead distZero ptsC8 scC8 (by with_unfolding_all decide)
  rw [hh]
  intro hcontra
  rw [Option.some.injEq] at hcontra
  have halt := congrArg Coord3.alt hcontra
  have hd : (ptsC8.getD scC8.diverge_index default).alt = 0 := by decide
  have hr : (ptsC8.getD scC8.rejoin_index default).alt = 100 := by decide
  have hq : scC8.query_value = "flatter" := rfl
  rw [hd, hr, hq] at halt
  simp only [flattenAlt] at halt
  norm_num at halt
  norm_num [pyRound1R, pyRoundIntR] at halt

/-- C8 amended: for every scenario whose diverge and rejoin points do not
coincide, the synthesized arc's first and last coordinates are the diverge
and rejoin points up to the output rounding (6 decimals for lat/lng, 1 for
altitude), except that for the flatter and sheltered scenarios the endpoint
altitudes are additionally pulled 70 % toward the segment's mean altitude;
the latitudes and longitudes themselves carry no lateral offset because the
sinusoidal bulge vanishes at interpolation fractions 0 and 1. -/
theorem C8_amended (dist : RoutePoint → RoutePoint → ℚ)
    (points : List RoutePoint) (scenario : AlternativeScenario)
    (h : ((points.getD scenario.rejoin_index default).lat -
            (points.getD scenario.diverge_index default).lat) ^ 2 +
          ((points.getD scenario.rejoin_index default).lng -
            (points.getD scenario.diverge_index default).lng) ^ 2 ≠ 0) :
    (generateMockAlternative dist points scenario).coordinates.head? =
      some { lat := pyRound6R ((points.getD scenario.diverge_index default).lat : ℝ)
             lng := pyRound6R ((points.getD scenario.diverge_index default).lng : ℝ)
             alt := pyRound1R (flattenAlt scenario.query_value
               ((points.getD scenario.diverge_index default).alt : ℝ)
               ((points.getD scenario.rejoin_index default).alt : ℝ)
               ((points.getD scenario.diverge_index default).alt : ℝ)) } ∧
    (generateMockAlternative dist points scenario).coordinates.getLast? =
      some { lat := pyRound6R ((points.getD scenario.rejoin_index default).lat : ℝ)
             lng := pyRound6R ((points.getD scenario.rejoin_index default).lng : ℝ)
             alt := pyRound1R (flattenAlt scenario.query_value
               ((points.getD scenario.diverge_index default).alt : ℝ)
               ((points.getD scenario.rejoin_index default).alt : ℝ)
               ((points.getD scenario.rejoin_index default).alt : ℝ)) } :=
  ⟨mockHead dist points scenario h, mockLast dist points scenario h⟩

/-- Closed instance of `C8_amended` on a concrete non-degenerate scenic
scenario. -/
theorem C8_witness :
    (((ptsC8w.getD scC8w.rejoin_index default).lat -
        (ptsC8w.getD scC8w.diverge_index default).lat) ^ 2 +
      ((ptsC8w.getD scC8w.rejoin_index default).lng -
        (ptsC8w.getD scC8w.diverge_index default).lng) ^ 2 ≠ 0) ∧
    ((generateMockAlternative distZero ptsC8w scC8w).coordinates.head? =
      some { lat := pyRound6R ((ptsC8w.getD scC8w.diverge_index default).lat : ℝ)
             lng := pyRound6R ((ptsC8w.getD scC8w.diverge_index default).lng : ℝ)
             alt := pyRound1R (flattenAlt scC8w.query_value
               ((ptsC8w.getD scC8w.diverge_index default).alt : ℝ)
               ((ptsC8w.getD scC8w.rejoin_index default).alt : ℝ)
               ((ptsC8w.getD scC8w.diverge_index default).alt : ℝ)) } ∧
    (generateMockAlternative distZero ptsC8w scC8w).coordinates.getLast? =
      some { lat := pyRound6R ((ptsC8w.getD scC8w.rejoin_index default).lat : ℝ)
             lng := pyRound6R ((ptsC8w.getD scC8w.rejoin_index default).lng : ℝ)
             alt := pyRound1R (flattenAlt scC8w.query_value
               ((ptsC8w.getD scC8w.diverge_index default).alt : ℝ)
               ((ptsC8w.getD scC8w.rejoin_index default).alt : ℝ)
               ((ptsC8w.getD scC8w.rejoin_index default).alt : ℝ)) }) :=
  ⟨by with_unfolding_all decide,
    C8_amended distZero ptsC8w scC8w (by with_unfolding_all decide)⟩
